import Mathlib

/-!
Verification development for the pyforked-daapd client library
(`src/pyforked_daapd/__init__.py`).

The library is a thin asynchronous wrapper around the forked-daapd HTTP
API plus one piece with real control flow: `start_websocket_handler`, a
perpetual reconnect loop that subscribes to server notifications and
forwards them to a caller-supplied callback.

We embed the handler as a function from a *transport script* (the
sequence of outcomes the transport produces for successive connect
attempts) to the trace of observable events the handler performs
(connect attempts, callback invocations, frames sent, sleeps), together
with an optional terminal error.  Each `await` of the update callback is
recorded as a start event immediately followed by an end event, which
makes the serialised-delivery guarantees expressible on traces.

The one-shot REST operations are embedded as pure functions of their
arguments and of the HTTP status / JSON body the transport returns.
-/

namespace ForkedDaapd

/-- A minimal JSON value type: enough to express the frames exchanged on
the notification socket and the bodies returned by the REST API. -/
inductive Json where
  | null : Json
  | bool (b : Bool) : Json
  | num (n : Int) : Json
  | str (s : String) : Json
  | arr (elems : List Json) : Json
  | obj (fields : List (String × Json)) : Json
  deriving Repr

/-- Errors the aiohttp transport can raise.  `timeout` embeds
`asyncio.TimeoutError`, `clientError` embeds `aiohttp.ClientError`;
`other` stands for any other exception class. -/
inductive TransportError where
  | timeout : TransportError
  | clientError : TransportError
  | other : TransportError
  deriving Repr, DecidableEq

/-- The `except (asyncio.TimeoutError, aiohttp.ClientError)` clauses of
the source catch exactly these two classes. -/
def isTransient : TransportError → Bool
  | TransportError.timeout => true
  | TransportError.clientError => true
  | TransportError.other => false

/-- Outcome of one `ws_connect` attempt in the transport script: either
the connect raises an error, or a session is established that delivers
`msgs` and then ends (`endErr = none`: the socket closes normally and
the message iterator is exhausted; `endErr = some e`: the receive loop
raises `e`). -/
inductive ConnectAttempt where
  | fail (e : TransportError) : ConnectAttempt
  | ok (msgs : List Json) (endErr : Option TransportError) : ConnectAttempt
  deriving Repr

/-- Observable events of one run of the websocket handler.  Awaiting
`update_callback(x)` is recorded as `updateStart x` followed by
`updateEnd x` once the callback completes. -/
inductive Event where
  | connectAttempt : Event
  | connected : Event
  | updateStart (arg : Json) : Event
  | updateEnd (arg : Json) : Event
  | send (frame : Json) : Event
  | disconnectedCb : Event
  | sleep (seconds : Nat) : Event
  deriving Repr

/-- Terminal errors of a (truncated) run of the handler. -/
inductive HandlerError where
  | notificationsDisabled : HandlerError
  | transport (e : TransportError) : HandlerError
  | frameError : HandlerError
  deriving Repr, DecidableEq

/-- The Python argument `event_types` (a list of strings) as the JSON
value it denotes; the priming call passes this list to the callback. -/
def encodeTags (eventTypes : List String) : Json :=
  Json.arr (eventTypes.map Json.str)

/-- The subscribe frame `websocket.send_json(data={"notify": event_types})`
constructs. -/
def subscribeFrame (eventTypes : List String) : Json :=
  Json.obj [("notify", encodeTags eventTypes)]

/-- The field lookup `msg.json()["notify"]`: `none` when the message is
not an object with a `notify` key (in Python a KeyError / TypeError,
which the handler does not catch). -/
def notifyField : Json → Option Json
  | Json.obj fields => fields.lookup "notify"
  | _ => none

/-- The `async for msg in websocket` body: for each message extract the
`notify` field and await `update_callback(updates)`.  A message without
the field aborts the session with an uncaught `frameError`. -/
def receiveLoop : List Json → List Event × Option HandlerError
  | [] => ([], none)
  | m :: rest =>
    match notifyField m with
    | none => ([], some HandlerError.frameError)
    | some u =>
      let r := receiveLoop rest
      (Event.updateStart u :: Event.updateEnd u :: r.1, r.2)

/-- Events of `if disconnected_callback: await disconnected_callback()`. -/
def discEvents (hasDisc : Bool) : List Event :=
  if hasDisc then [Event.disconnectedCb] else []

/-- Events performed on entering a session, before the receive loop:
the priming call `await update_callback(event_types)` followed by
`await websocket.send_json(data={"notify": event_types})`. -/
def sessionHead (eventTypes : List String) : List Event :=
  [Event.connectAttempt, Event.connected,
   Event.updateStart (encodeTags eventTypes),
   Event.updateEnd (encodeTags eventTypes),
   Event.send (subscribeFrame eventTypes)]

/-- The `while True` loop of `start_websocket_handler`, driven by the
transport script.  An exhausted script ends the (in reality perpetual)
run with no error; a caught transient error leads to the warning branch
(optional disconnected callback, sleep, retry); a non-transient error
propagates, truncating the trace. -/
def runLoop (eventTypes : List String) (reconnect : Nat) (hasDisc : Bool) :
    List ConnectAttempt → List Event × Option HandlerError
  | [] => ([], none)
  | ConnectAttempt.fail e :: rest =>
    if isTransient e then
      let r := runLoop eventTypes reconnect hasDisc rest
      (Event.connectAttempt :: (discEvents hasDisc ++ Event.sleep reconnect :: r.1), r.2)
    else
      ([Event.connectAttempt], some (HandlerError.transport e))
  | ConnectAttempt.ok msgs endErr :: rest =>
    let body := receiveLoop msgs
    match body.2 with
    | some e => (sessionHead eventTypes ++ body.1, some e)
    | none =>
      match endErr with
      | none =>
        let r := runLoop eventTypes reconnect hasDisc rest
        (sessionHead eventTypes ++ body.1 ++ r.1, r.2)
      | some e =>
        if isTransient e then
          let r := runLoop eventTypes reconnect hasDisc rest
          (sessionHead eventTypes ++ body.1
             ++ (discEvents hasDisc ++ Event.sleep reconnect :: r.1), r.2)
        else
          (sessionHead eventTypes ++ body.1, some (HandlerError.transport e))

/-- `ForkedDaapdAPI.start_websocket_handler`: raises immediately when
`ws_port == 0`, otherwise enters the reconnect loop. -/
def start_websocket_handler (ws_port : Nat) (eventTypes : List String)
    (reconnect : Nat) (hasDisc : Bool) (script : List ConnectAttempt) :
    List Event × Option HandlerError :=
  if ws_port = 0 then ([], some HandlerError.notificationsDisabled)
  else runLoop eventTypes reconnect hasDisc script

/-! ### REST helpers -/

/-- Python truthiness of a parsed JSON value (`if json`). -/
def jsonTruthy : Json → Bool
  | Json.null => false
  | Json.bool b => b
  | Json.num n => n != 0
  | Json.str s => s != ""
  | Json.arr elems => !elems.isEmpty
  | Json.obj fields => !fields.isEmpty

/-- Python truthiness of an `Optional[str]` argument (`if album_id`). -/
def strTruthy : Option String → Bool
  | none => false
  | some s => s != ""

/-- Python truthiness of an `Optional[int]` argument (`if position_ms`):
`None` and `0` are both falsy. -/
def intTruthy : Option Int → Bool
  | none => false
  | some v => v != 0

/-- What one HTTP GET produces: either an exception is raised while
issuing the request or decoding the body, or a JSON value is returned. -/
inductive HttpResult where
  | raised (e : TransportError) : HttpResult
  | value (j : Json) : HttpResult
  deriving Repr

/-- A transport maps the request URL to what that GET produces. -/
def Transport := String → HttpResult

/-- URL built by `get_request`: base plus endpoint, with manually joined
query parameters when `params` is truthy (non-empty). -/
def buildGetUrl (ip : String) (apiPort : Nat) (endpoint : String)
    (params : List (String × String)) : String :=
  let url := "http://" ++ ip ++ ":" ++ toString apiPort ++ "/api/" ++ endpoint
  if params.isEmpty then url
  else url ++ "?" ++ String.intercalate "&" (params.map fun kv => kv.1 ++ "=" ++ kv.2)

/-- `ForkedDaapdAPI.get_request`: issue the GET; a caught transient
error yields `None`, any other exception propagates, and a falsy JSON
body is also returned as `None`. -/
def get_request (transport : Transport) (ip : String) (apiPort : Nat)
    (endpoint : String) (params : List (String × String)) :
    Except TransportError (Option Json) :=
  match transport (buildGetUrl ip apiPort endpoint params) with
  | HttpResult.raised e =>
    if isTransient e then Except.ok none else Except.error e
  | HttpResult.value j =>
    Except.ok (if jsonTruthy j then some j else none)

/-- Python `dict.get(key)`: the value when present, `None` otherwise
(the sources only call it on dict results). -/
def dictGet (j : Json) (key : String) : Json :=
  match j with
  | Json.obj fields => (fields.lookup key).getD Json.null
  | _ => Json.null

/-- `ForkedDaapdAPI.get_playlists`: `get_request("library/playlists")`,
then `playlists.get("items") if playlists else None`. -/
def get_playlists (transport : Transport) (ip : String) (apiPort : Nat) :
    Except TransportError (Option Json) :=
  match get_request transport ip apiPort "library/playlists" [] with
  | Except.error e => Except.error e
  | Except.ok none => Except.ok none
  | Except.ok (some playlists) => Except.ok (some (dictGet playlists "items"))

/-- Python `album_id or playlist_id` on two `Optional[str]` values:
the first when truthy, the second otherwise. -/
def pyOr (a b : Option String) : Option String :=
  if strTruthy a then a else b

/-- `ForkedDaapdAPI.get_tracks`.  The returned pair is the Python value
(`Json.null` embeds `None`) together with the endpoint requested, or
`none` when the early return issues no request. -/
def get_tracks (transport : Transport) (ip : String) (apiPort : Nat)
    (album_id playlist_id : Option String) :
    Except TransportError (Json × Option String) :=
  match pyOr album_id playlist_id with
  | none => Except.ok (Json.arr [], none)
  | some item_id =>
    let endpoint := "library/"
      ++ (if strTruthy album_id then "albums" else "playlists")
      ++ "/" ++ item_id ++ "/tracks"
    match get_request transport ip apiPort endpoint [] with
    | Except.error e => Except.error e
    | Except.ok none => Except.ok (Json.null, some endpoint)
    | Except.ok (some tracks) => Except.ok (dictGet tracks "items", some endpoint)

/-! ### One-shot write operations -/

/-- A query-parameter value as assembled by the write operations. -/
inductive PVal where
  | pint (v : Int) : PVal
  | pstr (v : String) : PVal
  | pbool (v : Bool) : PVal
  deriving Repr, DecidableEq

/-- Observable outcome of one write operation: the integer it returns,
whether an HTTP request was issued, the query parameters sent with it,
and whether the operation took its failure-logging branch (the
`if status != ...` debug message). -/
structure OpOutcome where
  status : Int
  issued : Bool
  params : List (String × PVal)
  failLogged : Bool
  deriving Repr, DecidableEq

/-- Success of a write operation as the spec abstracts it: the
operation did not take its failure branch. -/
def opSuccess (o : OpOutcome) : Bool := !o.failLogged

/-- `ForkedDaapdAPI.start_playback`: PUT `player/play`, log unless the
status is 204, return the status.  `status` is what the transport's PUT
returned. -/
def start_playback (status : Int) : OpOutcome :=
  { status := status, issued := true, params := [],
    failLogged := decide (status ≠ 204) }

/-- `ForkedDaapdAPI.seek`: choose `position_ms` when truthy, else
`seek_ms` when truthy, else log an error and return -1 with no request. -/
def seek (position_ms seek_ms : Option Int) (status : Int) : OpOutcome :=
  if intTruthy position_ms then
    { status := status, issued := true,
      params := [("position_ms", PVal.pint (position_ms.getD 0))],
      failLogged := decide (status ≠ 204) }
  else if intTruthy seek_ms then
    { status := status, issued := true,
      params := [("seek_ms", PVal.pint (seek_ms.getD 0))],
      failLogged := decide (status ≠ 204) }
  else
    { status := -1, issued := false, params := [], failLogged := false }

/-- `ForkedDaapdAPI.set_volume`: choose `volume` when truthy, else
`step` when truthy, else log an error and return HTTPStatus.BAD_REQUEST
(400) with no request; a truthy `output_id` is appended to the params. -/
def set_volume (volume step : Option Int) (output_id : Option String)
    (status : Int) : OpOutcome :=
  if intTruthy volume then
    { status := status, issued := true,
      params := [("volume", PVal.pint (volume.getD 0))]
        ++ (if strTruthy output_id
            then [("output_id", PVal.pstr (output_id.getD ""))] else []),
      failLogged := decide (status ≠ 204) }
  else if intTruthy step then
    { status := status, issued := true,
      params := [("step", PVal.pint (step.getD 0))]
        ++ (if strTruthy output_id
            then [("output_id", PVal.pstr (output_id.getD ""))] else []),
      failLogged := decide (status ≠ 204) }
  else
    { status := 400, issued := false, params := [], failLogged := false }

/-- Optional fields merged into the `add_to_queue` params with
`if v is not None` (note `clear` and `shuffle` are plain bools and thus
never `None`, so they are always included). -/
def addToQueueExtras (playback : Option String)
    (playback_from_position : Option Int) (clear shuffle : Bool)
    (position : Option Int) : List (String × PVal) :=
  (match playback with
   | some v => [("playback", PVal.pstr v)]
   | none => [])
  ++ (match playback_from_position with
      | some v => [("playback_from_position", PVal.pint v)]
      | none => [])
  ++ [("clear", PVal.pbool clear), ("shuffle", PVal.pbool shuffle)]
  ++ (match position with
      | some v => [("position", PVal.pint v)]
      | none => [])

/-- `ForkedDaapdAPI.add_to_queue`: BAD_REQUEST (400) with no request
unless `uris` or `expression` is truthy; otherwise POST
`queue/items/add` and log unless the status is 200. -/
def add_to_queue (uris expression playback : Option String)
    (playback_from_position : Option Int) (clear shuffle : Bool)
    (position : Option Int) (status : Int) : OpOutcome :=
  if !(strTruthy uris || strTruthy expression) then
    { status := 400, issued := false, params := [], failLogged := false }
  else
    let base :=
      if strTruthy uris then [("uris", PVal.pstr (uris.getD ""))]
      else [("expression", PVal.pstr (expression.getD ""))]
    { status := status, issued := true,
      params := base
        ++ addToQueueExtras playback playback_from_position clear shuffle position,
      failLogged := decide (status ≠ 200) }

/-! ### Derived notions used to state the properties -/

/-- The `notify` field of a message, defaulting to `null`; on
well-formed messages this is exactly `msg.json()["notify"]`. -/
def notifyD (m : Json) : Json := (notifyField m).getD Json.null

/-- A script entry that is a connect failure with an error the handler
catches. -/
def isTransientFail : ConnectAttempt → Bool
  | ConnectAttempt.fail e => isTransient e
  | ConnectAttempt.ok _ _ => false

/-- A script entry that is a fully successful session: every message
carries a `notify` field and the socket closes normally. -/
def isCleanOk : ConnectAttempt → Bool
  | ConnectAttempt.ok msgs none => msgs.all fun m => (notifyField m).isSome
  | _ => false

/-- Number of invocations of the disconnected callback in a trace. -/
def countDisc : List Event → Nat
  | [] => 0
  | Event.disconnectedCb :: rest => countDisc rest + 1
  | _ :: rest => countDisc rest

/-- Scanner for the priming discipline: at every successful connect the
very next events are one complete update-callback invocation with
argument `enc` (start immediately followed by end) and then the send of
frame `sub`; scanning then resumes. -/
def primedScan (enc sub : Json) : List Event → Prop
  | [] => True
  | Event.connected :: Event.updateStart a :: Event.updateEnd b :: Event.send f :: rest =>
      a = enc ∧ b = enc ∧ f = sub ∧ primedScan enc sub rest
  | Event.connected :: _ => False
  | _ :: rest => primedScan enc sub rest

/-! ### Structural lemmas about the handler -/

lemma mem_discEvents {e : Event} {d : Bool} (h : e ∈ discEvents d) :
    e = Event.disconnectedCb := by
  cases d
  · simp [discEvents] at h
  · simpa [discEvents] using h

lemma receiveLoop_mem (msgs : List Json) :
    ∀ e ∈ (receiveLoop msgs).1,
      (∃ u, e = Event.updateStart u) ∨ ∃ u, e = Event.updateEnd u := by
  induction msgs with
  | nil => simp [receiveLoop]
  | cons m rest ih =>
    cases hm : notifyField m with
    | none => simp [receiveLoop, hm]
    | some u =>
      intro e he
      simp only [receiveLoop, hm, List.mem_cons] at he
      rcases he with rfl | rfl | he
      · exact Or.inl ⟨u, rfl⟩
      · exact Or.inr ⟨u, rfl⟩
      · exact ih e he

lemma receiveLoop_wellformed (msgs : List Json)
    (h : (msgs.all fun m => (notifyField m).isSome) = true) :
    receiveLoop msgs =
      (msgs.flatMap fun m => [Event.updateStart (notifyD m), Event.updateEnd (notifyD m)],
       none) := by
  induction msgs with
  | nil => simp [receiveLoop]
  | cons m rest ih =>
    simp only [List.all_cons, Bool.and_eq_true] at h
    obtain ⟨u, hu⟩ := Option.isSome_iff_exists.mp h.1
    simp [receiveLoop, hu, ih h.2, notifyD]

lemma receiveLoop_err (msgs : List Json) :
    (receiveLoop msgs).2 = none ∨
      (receiveLoop msgs).2 = some HandlerError.frameError := by
  induction msgs with
  | nil => simp [receiveLoop]
  | cons m rest ih =>
    cases hm : notifyField m with
    | none => simp [receiveLoop, hm]
    | some u => simpa [receiveLoop, hm] using ih

lemma runLoop_cons_fail_transient {e : TransportError} (ht : isTransient e = true)
    (eventTypes : List String) (r : Nat) (d : Bool) (rest : List ConnectAttempt) :
    runLoop eventTypes r d (ConnectAttempt.fail e :: rest) =
      (Event.connectAttempt ::
         (discEvents d ++ Event.sleep r :: (runLoop eventTypes r d rest).1),
       (runLoop eventTypes r d rest).2) := by
  simp [runLoop, ht]

lemma runLoop_cons_fail_fatal {e : TransportError} (ht : isTransient e = false)
    (eventTypes : List String) (r : Nat) (d : Bool) (rest : List ConnectAttempt) :
    runLoop eventTypes r d (ConnectAttempt.fail e :: rest) =
      ([Event.connectAttempt], some (HandlerError.transport e)) := by
  simp [runLoop, ht]

lemma runLoop_cons_ok_frameErr {msgs : List Json} {btr : List Event}
    {e2 : HandlerError} (hb : receiveLoop msgs = (btr, some e2))
    (eventTypes : List String) (r : Nat) (d : Bool)
    (endErr : Option TransportError) (rest : List ConnectAttempt) :
    runLoop eventTypes r d (ConnectAttempt.ok msgs endErr :: rest) =
      (sessionHead eventTypes ++ btr, some e2) := by
  simp [runLoop, hb]

lemma runLoop_cons_ok_closed {msgs : List Json} {btr : List Event}
    (hb : receiveLoop msgs = (btr, none))
    (eventTypes : List String) (r : Nat) (d : Bool) (rest : List ConnectAttempt) :
    runLoop eventTypes r d (ConnectAttempt.ok msgs none :: rest) =
      (sessionHead eventTypes ++ btr ++ (runLoop eventTypes r d rest).1,
       (runLoop eventTypes r d rest).2) := by
  simp [runLoop, hb]

lemma runLoop_cons_ok_transient {msgs : List Json} {btr : List Event}
    {e : TransportError} (hb : receiveLoop msgs = (btr, none))
    (ht : isTransient e = true)
    (eventTypes : List String) (r : Nat) (d : Bool) (rest : List ConnectAttempt) :
    runLoop eventTypes r d (ConnectAttempt.ok msgs (some e) :: rest) =
      (sessionHead eventTypes ++ btr
         ++ (discEvents d ++ Event.sleep r :: (runLoop eventTypes r d rest).1),
       (runLoop eventTypes r d rest).2) := by
  simp [runLoop, hb, ht]

lemma runLoop_cons_ok_fatal {msgs : List Json} {btr : List Event}
    {e : TransportError} (hb : receiveLoop msgs = (btr, none))
    (ht : isTransient e = false)
    (eventTypes : List String) (r : Nat) (d : Bool) (rest : List ConnectAttempt) :
    runLoop eventTypes r d (ConnectAttempt.ok msgs (some e) :: rest) =
      (sessionHead eventTypes ++ btr, some (HandlerError.transport e)) := by
  simp [runLoop, hb, ht]

lemma runLoop_allFail (eventTypes : List String) (r : Nat) (d : Bool)
    (script : List ConnectAttempt) (h : script.all isTransientFail = true) :
    runLoop eventTypes r d script =
      (script.flatMap fun _ => Event.connectAttempt :: (discEvents d ++ [Event.sleep r]),
       none) := by
  induction script with
  | nil => simp [runLoop]
  | cons a rest ih =>
    simp only [List.all_cons, Bool.and_eq_true] at h
    cases a with
    | ok msgs endErr => simp [isTransientFail] at h
    | fail e =>
      have ht : isTransient e = true := h.1
      rw [runLoop_cons_fail_transient ht, ih h.2]
      simp

lemma runLoop_ne_notificationsDisabled (eventTypes : List String) (r : Nat)
    (d : Bool) (script : List ConnectAttempt) :
    (runLoop eventTypes r d script).2 ≠ some HandlerError.notificationsDisabled := by
  induction script with
  | nil => simp [runLoop]
  | cons a rest ih =>
    cases a with
    | fail e =>
      cases ht : isTransient e
      · rw [runLoop_cons_fail_fatal ht]
        simp
      · rw [runLoop_cons_fail_transient ht]
        exact ih
    | ok msgs endErr =>
      rcases hb : receiveLoop msgs with ⟨btr, berr⟩
      rcases receiveLoop_err msgs with h2 | h2 <;> rw [hb] at h2
      · cases h2
        cases endErr with
        | none =>
          rw [runLoop_cons_ok_closed hb]
          exact ih
        | some e =>
          cases ht : isTransient e
          · rw [runLoop_cons_ok_fatal hb ht]
            simp
          · rw [runLoop_cons_ok_transient hb ht]
            exact ih
      · cases h2
        rw [runLoop_cons_ok_frameErr hb]
        simp

lemma countDisc_append (a b : List Event) :
    countDisc (a ++ b) = countDisc a + countDisc b := by
  induction a with
  | nil => simp [countDisc]
  | cons e t ih =>
    cases e
    case disconnectedCb =>
      simp [countDisc, ih]
      omega
    all_goals simp [countDisc, ih]

lemma countDisc_receiveLoop (msgs : List Json) :
    countDisc (receiveLoop msgs).1 = 0 := by
  induction msgs with
  | nil => simp [receiveLoop, countDisc]
  | cons m rest ih =>
    cases hm : notifyField m with
    | none => simp [receiveLoop, hm, countDisc]
    | some u => simp [receiveLoop, hm, countDisc, ih]

lemma countDisc_sessionHead (eventTypes : List String) :
    countDisc (sessionHead eventTypes) = 0 := by
  simp [sessionHead, countDisc]

lemma countDisc_failChunk (r : Nat) :
    countDisc (Event.connectAttempt :: (discEvents true ++ [Event.sleep r])) = 1 := by
  simp [discEvents, countDisc]

lemma countDisc_runLoop_clean (eventTypes : List String) (r : Nat) (d : Bool)
    (script : List ConnectAttempt) (h : script.all isCleanOk = true) :
    countDisc (runLoop eventTypes r d script).1 = 0 := by
  induction script with
  | nil => simp [runLoop, countDisc]
  | cons a rest ih =>
    simp only [List.all_cons, Bool.and_eq_true] at h
    cases a with
    | fail e => simp [isCleanOk] at h
    | ok msgs endErr =>
      cases endErr with
      | some e => simp [isCleanOk] at h
      | none =>
        have hwf : (msgs.all fun m => (notifyField m).isSome) = true := h.1
        have hb : receiveLoop msgs = ((receiveLoop msgs).1, none) := by
          rw [receiveLoop_wellformed msgs hwf]
        rw [runLoop_cons_ok_closed hb]
        simp [countDisc_append, countDisc_sessionHead, countDisc_receiveLoop, ih h.2]

lemma primedScan_cons_of_ne (enc sub : Json) (e : Event) (t : List Event)
    (he : e ≠ Event.connected) :
    primedScan enc sub (e :: t) ↔ primedScan enc sub t := by
  cases e
  case connected => exact absurd rfl he
  all_goals simp [primedScan]

lemma primedScan_append (enc sub : Json) (l₁ l₂ : List Event)
    (h : ∀ e ∈ l₁, e ≠ Event.connected) (h₂ : primedScan enc sub l₂) :
    primedScan enc sub (l₁ ++ l₂) := by
  induction l₁ with
  | nil => simpa using h₂
  | cons e t ih =>
    rw [List.cons_append, primedScan_cons_of_ne enc sub e _ (h e (by simp))]
    exact ih fun x hx => h x (by simp [hx])

lemma primedScan_of_no_connected (enc sub : Json) (l : List Event)
    (h : ∀ e ∈ l, e ≠ Event.connected) : primedScan enc sub l := by
  have := primedScan_append enc sub l [] h (by simp [primedScan])
  simpa using this

lemma receiveLoop_no_connected (msgs : List Json) :
    ∀ e ∈ (receiveLoop msgs).1, e ≠ Event.connected := by
  intro e he
  rcases receiveLoop_mem msgs e he with ⟨u, rfl⟩ | ⟨u, rfl⟩ <;>
    exact fun h => Event.noConfusion h

lemma discEvents_no_connected (d : Bool) :
    ∀ e ∈ discEvents d, e ≠ Event.connected := by
  intro e he
  rw [mem_discEvents he]
  exact fun h => Event.noConfusion h

lemma runLoop_primed (eventTypes : List String) (r : Nat) (d : Bool)
    (script : List ConnectAttempt) :
    primedScan (encodeTags eventTypes) (subscribeFrame eventTypes)
      (runLoop eventTypes r d script).1 := by
  induction script with
  | nil => simp [runLoop, primedScan]
  | cons a rest ih =>
    cases a with
    | fail e =>
      cases ht : isTransient e
      · rw [runLoop_cons_fail_fatal ht]
        simp [primedScan]
      · rw [runLoop_cons_fail_transient ht]
        dsimp only
        rw [primedScan_cons_of_ne _ _ _ _ fun h => Event.noConfusion h]
        apply primedScan_append _ _ _ _ (discEvents_no_connected d)
        rw [primedScan_cons_of_ne _ _ _ _ fun h => Event.noConfusion h]
        exact ih
    | ok msgs endErr =>
      rcases hb : receiveLoop msgs with ⟨btr, berr⟩
      have hbtr : ∀ e ∈ btr, e ≠ Event.connected := by
        intro e he
        exact receiveLoop_no_connected msgs e (by rw [hb]; exact he)
      have hhead : ∀ tail, primedScan (encodeTags eventTypes) (subscribeFrame eventTypes) tail →
          primedScan (encodeTags eventTypes) (subscribeFrame eventTypes)
            (sessionHead eventTypes ++ btr ++ tail) := by
        intro tail htail
        rw [List.append_assoc]
        simp only [sessionHead, List.cons_append, List.nil_append]
        rw [primedScan_cons_of_ne _ _ _ _ fun h => Event.noConfusion h]
        simp only [primedScan]
        exact ⟨by simp, by simp, by simp, primedScan_append _ _ _ _ hbtr htail⟩
      cases berr with
      | some e2 =>
        rw [runLoop_cons_ok_frameErr hb]
        dsimp only
        have := hhead [] (by simp [primedScan])
        simpa using this
      | none =>
        cases endErr with
        | none =>
          rw [runLoop_cons_ok_closed hb]
          dsimp only
          exact hhead _ ih
        | some e =>
          cases ht : isTransient e
          · rw [runLoop_cons_ok_fatal hb ht]
            dsimp only
            have := hhead [] (by simp [primedScan])
            simpa using this
          · rw [runLoop_cons_ok_transient hb ht]
            dsimp only
            apply hhead
            apply primedScan_append _ _ _ _ (discEvents_no_connected d)
            rw [primedScan_cons_of_ne _ _ _ _ fun h => Event.noConfusion h]
            exact ih

lemma runLoop_send (eventTypes : List String) (r : Nat) (d : Bool)
    (script : List ConnectAttempt) (f : Json)
    (h : Event.send f ∈ (runLoop eventTypes r d script).1) :
    f = subscribeFrame eventTypes := by
  induction script with
  | nil => simp [runLoop] at h
  | cons a rest ih =>
    cases a with
    | fail e =>
      cases ht : isTransient e
      · rw [runLoop_cons_fail_fatal ht] at h
        simp at h
      · rw [runLoop_cons_fail_transient ht] at h
        cases d
        · simp [discEvents] at h
          exact ih h
        · simp [discEvents] at h
          exact ih h
    | ok msgs endErr =>
      rcases hb : receiveLoop msgs with ⟨btr, berr⟩
      have hbtr : Event.send f ∈ btr → False := by
        intro hx
        rcases receiveLoop_mem msgs _ (by rw [hb]; exact hx) with ⟨u, hu⟩ | ⟨u, hu⟩ <;>
          exact Event.noConfusion hu
      have hhead : Event.send f ∈ sessionHead eventTypes →
          f = subscribeFrame eventTypes := by
        intro hx
        simpa [sessionHead] using hx
      cases berr with
      | some e2 =>
        rw [runLoop_cons_ok_frameErr hb] at h
        dsimp only at h
        rcases List.mem_append.mp h with hx | hx
        · exact hhead hx
        · exact absurd hx hbtr
      | none =>
        cases endErr with
        | none =>
          rw [runLoop_cons_ok_closed hb] at h
          dsimp only at h
          rcases List.mem_append.mp h with hx | hx
          · rcases List.mem_append.mp hx with hy | hy
            · exact hhead hy
            · exact absurd hy hbtr
          · exact ih hx
        | some e =>
          cases ht : isTransient e
          · rw [runLoop_cons_ok_fatal hb ht] at h
            dsimp only at h
            rcases List.mem_append.mp h with hx | hx
            · exact hhead hx
            · exact absurd hx hbtr
          · rw [runLoop_cons_ok_transient hb ht] at h
            dsimp only at h
            rcases List.mem_append.mp h with hx | hx
            · rcases List.mem_append.mp hx with hy | hy
              · exact hhead hy
              · exact absurd hy hbtr
            · rcases List.mem_append.mp hx with hy | hy
              · exact absurd (mem_discEvents hy) fun hw => Event.noConfusion hw
              · rcases List.mem_cons.mp hy with hw | hw
                · exact absurd hw fun hw2 => Event.noConfusion hw2
                · exact ih hw

lemma countDisc_flatMap_failChunk (r : Nat) (script : List ConnectAttempt) :
    countDisc (script.flatMap fun _ =>
      Event.connectAttempt :: (discEvents true ++ [Event.sleep r])) = script.length := by
  induction script with
  | nil => simp [countDisc]
  | cons a rest ih =>
    rw [List.flatMap_cons, countDisc_append, ih, countDisc_failChunk,
      List.length_cons]
    omega

/-! ### The claims -/

/-- C1: when every connect attempt raises a transport-transient error
(timeout or client connection error), the handler never lets the error
escape: the run ends with no terminal error, and for each failed attempt
the trace shows the attempt, the optional disconnected callback, and a
sleep of `reconnect` seconds before the next attempt — one chunk per
script entry, so retrying continues as long as the failures do. -/
theorem claim_C1_transient_connect_failures_never_propagate
    (ws_port : Nat) (eventTypes : List String) (r : Nat) (d : Bool)
    (script : List ConnectAttempt) (hp : ws_port ≠ 0)
    (h : script.all isTransientFail = true) :
    start_websocket_handler ws_port eventTypes r d script =
      (script.flatMap fun _ =>
         Event.connectAttempt :: (discEvents d ++ [Event.sleep r]),
       none) := by
  simp only [start_websocket_handler, hp, if_false]
  exact runLoop_allFail eventTypes r d script h

/-- Witness for C1 at a concrete two-failure script. -/
theorem claim_C1_transient_connect_failures_never_propagate_witness :
    (2 : Nat) ≠ 0 ∧
    ([ConnectAttempt.fail TransportError.timeout,
      ConnectAttempt.fail TransportError.clientError].all isTransientFail = true) ∧
    start_websocket_handler 2 ["player"] 7 true
        [ConnectAttempt.fail TransportError.timeout,
         ConnectAttempt.fail TransportError.clientError] =
      ([ConnectAttempt.fail TransportError.timeout,
        ConnectAttempt.fail TransportError.clientError].flatMap fun _ =>
         Event.connectAttempt :: (discEvents true ++ [Event.sleep 7]),
       none) :=
  ⟨by decide, by decide,
   claim_C1_transient_connect_failures_never_propagate 2 ["player"] 7 true _
     (by decide) (by decide)⟩

/-- C2: with `ws_port = 0` the handler fails at once with the
notifications-disabled error and performs no event at all (in particular
no connect attempt and no retry); with any nonzero port that error is
never produced. -/
theorem claim_C2_port_zero_notifications_disabled :
    (∀ (eventTypes : List String) (r : Nat) (d : Bool)
       (script : List ConnectAttempt),
       start_websocket_handler 0 eventTypes r d script =
         ([], some HandlerError.notificationsDisabled)) ∧
    (∀ (ws_port : Nat) (eventTypes : List String) (r : Nat) (d : Bool)
       (script : List ConnectAttempt), ws_port ≠ 0 →
       (start_websocket_handler ws_port eventTypes r d script).2 ≠
         some HandlerError.notificationsDisabled) := by
  constructor
  · intro eventTypes r d script
    simp [start_websocket_handler]
  · intro p eventTypes r d script hp
    simp only [start_websocket_handler, hp, if_false]
    exact runLoop_ne_notificationsDisabled eventTypes r d script

/-- Witness for C2: port 0 fails immediately; port 3689 never raises
the notifications-disabled error. -/
theorem claim_C2_port_zero_notifications_disabled_witness :
    start_websocket_handler 0 ["player"] 5 false [] =
      ([], some HandlerError.notificationsDisabled) ∧
    ((3689 : Nat) ≠ 0 ∧
     (start_websocket_handler 3689 ["player"] 5 false []).2 ≠
       some HandlerError.notificationsDisabled) :=
  ⟨claim_C2_port_zero_notifications_disabled.1 ["player"] 5 false [],
   by decide,
   claim_C2_port_zero_notifications_disabled.2 3689 ["player"] 5 false []
     (by decide)⟩

/-- C3: every successful connect is immediately followed by one complete
update-callback invocation whose argument is the original `event_types`
(the priming call), and only after that invocation has completed is the
subscribe frame sent. -/
theorem claim_C3_priming_call_before_subscribe_frame
    (ws_port : Nat) (eventTypes : List String) (r : Nat) (d : Bool)
    (script : List ConnectAttempt) :
    primedScan (encodeTags eventTypes) (subscribeFrame eventTypes)
      (start_websocket_handler ws_port eventTypes r d script).1 := by
  by_cases hp : ws_port = 0
  · simp [start_websocket_handler, hp, primedScan]
  · simp only [start_websocket_handler, hp, if_false]
    exact runLoop_primed eventTypes r d script

/-- C4: within one connected session the callback is invoked once per
inbound frame, with the value of the frame's `notify` field, in arrival
order, each invocation ending before the next one starts. -/
theorem claim_C4_updates_in_order_serialised
    (ws_port : Nat) (eventTypes : List String) (r : Nat) (d : Bool)
    (msgs : List Json) (rest : List ConnectAttempt) (hp : ws_port ≠ 0)
    (h : (msgs.all fun m => (notifyField m).isSome) = true) :
    start_websocket_handler ws_port eventTypes r d
        (ConnectAttempt.ok msgs none :: rest) =
      (sessionHead eventTypes
         ++ (msgs.flatMap fun m =>
              [Event.updateStart (notifyD m), Event.updateEnd (notifyD m)])
         ++ (runLoop eventTypes r d rest).1,
       (runLoop eventTypes r d rest).2) := by
  have hb : receiveLoop msgs =
      (msgs.flatMap fun m =>
        [Event.updateStart (notifyD m), Event.updateEnd (notifyD m)], none) :=
    receiveLoop_wellformed msgs h
  simp only [start_websocket_handler, hp, if_false]
  rw [runLoop_cons_ok_closed hb]

/-- Witness for C4 at the session of P3: frames for player then
queue+volume. -/
theorem claim_C4_updates_in_order_serialised_witness :
    (1 : Nat) ≠ 0 ∧
    (([Json.obj [("notify", Json.arr [Json.str "player"])],
       Json.obj [("notify", Json.arr [Json.str "queue", Json.str "volume"])]].all
        fun m => (notifyField m).isSome) = true) ∧
    start_websocket_handler 1 ["player", "queue"] 5 false
        [ConnectAttempt.ok
          [Json.obj [("notify", Json.arr [Json.str "player"])],
           Json.obj [("notify", Json.arr [Json.str "queue", Json.str "volume"])]]
          none] =
      (sessionHead ["player", "queue"]
         ++ ([Json.obj [("notify", Json.arr [Json.str "player"])],
              Json.obj [("notify", Json.arr [Json.str "queue", Json.str "volume"])]].flatMap
              fun m =>
                [Event.updateStart (notifyD m), Event.updateEnd (notifyD m)])
         ++ (runLoop ["player", "queue"] 5 false []).1,
       (runLoop ["player", "queue"] 5 false []).2) :=
  ⟨by decide, by decide,
   claim_C4_updates_in_order_serialised 1 ["player", "queue"] 5 false _ []
     (by decide) (by decide)⟩

/-- C5: with a disconnected callback supplied, a run of N transient
connect failures invokes it exactly N times, and a run of clean
successful sessions invokes it zero times. -/
theorem claim_C5_disconnected_callback_count
    (ws_port : Nat) (eventTypes : List String) (r : Nat) (hp : ws_port ≠ 0) :
    (∀ script : List ConnectAttempt, script.all isTransientFail = true →
       countDisc (start_websocket_handler ws_port eventTypes r true script).1 =
         script.length) ∧
    (∀ script : List ConnectAttempt, script.all isCleanOk = true →
       countDisc (start_websocket_handler ws_port eventTypes r true script).1 = 0) := by
  constructor
  · intro script h
    simp only [start_websocket_handler, hp, if_false]
    rw [runLoop_allFail eventTypes r true script h]
    exact countDisc_flatMap_failChunk r script
  · intro script h
    simp only [start_websocket_handler, hp, if_false]
    exact countDisc_runLoop_clean eventTypes r true script h

/-- Witness for C5: three failures give three invocations; one clean
session gives zero. -/
theorem claim_C5_disconnected_callback_count_witness :
    (1 : Nat) ≠ 0 ∧
    ([ConnectAttempt.fail TransportError.timeout,
      ConnectAttempt.fail TransportError.timeout,
      ConnectAttempt.fail TransportError.clientError].all isTransientFail = true) ∧
    countDisc (start_websocket_handler 1 ["player"] 5 true
        [ConnectAttempt.fail TransportError.timeout,
         ConnectAttempt.fail TransportError.timeout,
         ConnectAttempt.fail TransportError.clientError]).1 = 3 ∧
    ([ConnectAttempt.ok [Json.obj [("notify", Json.arr [Json.str "player"])]]
        none].all isCleanOk = true) ∧
    countDisc (start_websocket_handler 1 ["player"] 5 true
        [ConnectAttempt.ok [Json.obj [("notify", Json.arr [Json.str "player"])]]
          none]).1 = 0 :=
  ⟨by decide, by decide,
   (claim_C5_disconnected_callback_count 1 ["player"] 5 (by decide)).1 _ (by decide),
   by decide,
   (claim_C5_disconnected_callback_count 1 ["player"] 5 (by decide)).2 _ (by decide)⟩

/-- C6: every frame the handler ever sends — on the first session and on
every session after a reconnect — is the subscribe frame built from the
original `event_types`, unchanged. -/
theorem claim_C6_resubscribe_uses_original_event_types
    (ws_port : Nat) (eventTypes : List String) (r : Nat) (d : Bool)
    (script : List ConnectAttempt) (f : Json)
    (h : Event.send f ∈ (start_websocket_handler ws_port eventTypes r d script).1) :
    f = subscribeFrame eventTypes := by
  by_cases hp : ws_port = 0
  · simp [start_websocket_handler, hp] at h
  · simp only [start_websocket_handler, hp, if_false] at h
    exact runLoop_send eventTypes r d script f h

/-- Witness for C6 at a one-session run. -/
theorem claim_C6_resubscribe_uses_original_event_types_witness :
    Event.send (subscribeFrame ["player"]) ∈
      (start_websocket_handler 1 ["player"] 5 false [ConnectAttempt.ok [] none]).1 ∧
    subscribeFrame ["player"] = subscribeFrame ["player"] := by
  have hmem : Event.send (subscribeFrame ["player"]) ∈
      (start_websocket_handler 1 ["player"] 5 false [ConnectAttempt.ok [] none]).1 := by
    simp [start_websocket_handler, runLoop, receiveLoop, sessionHead]
  exact ⟨hmem,
    claim_C6_resubscribe_uses_original_event_types 1 ["player"] 5 false _ _ hmem⟩

/-- C7: a transient transport error (timeout or client error) makes
`get_request` — and `get_playlists` built on it — return `None` rather
than propagate the exception. -/
theorem claim_C7_get_requests_absorb_transient_errors
    (ip : String) (apiPort : Nat) (endpoint : String)
    (params : List (String × String)) (e : TransportError)
    (h : isTransient e = true) :
    get_request (fun _ => HttpResult.raised e) ip apiPort endpoint params =
      Except.ok none ∧
    get_playlists (fun _ => HttpResult.raised e) ip apiPort = Except.ok none := by
  constructor
  · simp [get_request, h]
  · simp [get_playlists, get_request, h]

/-- Witness for C7 at a concrete timed-out GET. -/
theorem claim_C7_get_requests_absorb_transient_errors_witness :
    isTransient TransportError.timeout = true ∧
    get_request (fun _ => HttpResult.raised TransportError.timeout)
        "192.168.1.2" 3689 "library/playlists" [] = Except.ok none ∧
    get_playlists (fun _ => HttpResult.raised TransportError.timeout)
        "192.168.1.2" 3689 = Except.ok none :=
  ⟨by decide,
   (claim_C7_get_requests_absorb_transient_errors "192.168.1.2" 3689
      "library/playlists" [] TransportError.timeout (by decide)).1,
   (claim_C7_get_requests_absorb_transient_errors "192.168.1.2" 3689
      "library/playlists" [] TransportError.timeout (by decide)).2⟩

/-- C8: each one-shot write operation returns the transport's status
code and succeeds (takes no failure branch) exactly when that status is
the operation's documented success code: 204 for `start_playback` and
`set_volume`, 200 for `add_to_queue`. -/
theorem claim_C8_write_ops_success_iff_documented_status :
    (∀ s : Int, (start_playback s).status = s ∧ (start_playback s).issued = true ∧
       (opSuccess (start_playback s) = true ↔ s = 204)) ∧
    (∀ (s : Int) (volume step : Option Int) (oid : Option String),
       intTruthy volume = true →
         (set_volume volume step oid s).status = s ∧
         (set_volume volume step oid s).issued = true ∧
         (opSuccess (set_volume volume step oid s) = true ↔ s = 204)) ∧
    (∀ (s : Int) (uris expr pb : Option String) (pfp : Option Int)
       (clear shuf : Bool) (pos : Option Int),
       strTruthy uris = true →
         (add_to_queue uris expr pb pfp clear shuf pos s).status = s ∧
         (add_to_queue uris expr pb pfp clear shuf pos s).issued = true ∧
         (opSuccess (add_to_queue uris expr pb pfp clear shuf pos s) = true ↔
           s = 200)) := by
  refine ⟨?_, ?_, ?_⟩
  · intro s
    simp [start_playback, opSuccess]
  · intro s volume step oid hv
    simp [set_volume, hv, opSuccess]
  · intro s uris expr pb pfp clear shuf pos hu
    simp [add_to_queue, hu, opSuccess]

/-- Witness for C8 at concrete successful calls. -/
theorem claim_C8_write_ops_success_iff_documented_status_witness :
    ((start_playback 204).status = 204 ∧ (start_playback 204).issued = true ∧
       (opSuccess (start_playback 204) = true ↔ (204 : Int) = 204)) ∧
    intTruthy (some 30) = true ∧
    ((set_volume (some 30) none none 204).status = 204 ∧
       (set_volume (some 30) none none 204).issued = true ∧
       (opSuccess (set_volume (some 30) none none 204) = true ↔
         (204 : Int) = 204)) ∧
    strTruthy (some "library:track:1") = true ∧
    ((add_to_queue (some "library:track:1") none none none false false none
          200).status = 200 ∧
       (add_to_queue (some "library:track:1") none none none false false none
          200).issued = true ∧
       (opSuccess (add_to_queue (some "library:track:1") none none none false
          false none 200) = true ↔ (200 : Int) = 200)) :=
  ⟨claim_C8_write_ops_success_iff_documented_status.1 204,
   by decide,
   claim_C8_write_ops_success_iff_documented_status.2.1 204 (some 30) none none
     (by decide),
   by decide,
   claim_C8_write_ops_success_iff_documented_status.2.2 200
     (some "library:track:1") none none none false false none (by decide)⟩

/-- C9: the truthiness checks treat an integer 0 as absent: `seek` with
`position_ms = 0` and no `seek_ms` returns -1 without a request, and
`set_volume` with `volume = 0` and no `step` returns 400 without a
request — so volume 0 is unreachable through the `volume` parameter. -/
theorem claim_C9_zero_arguments_treated_as_absent :
    (∀ s : Int, seek (some 0) none s =
       { status := -1, issued := false, params := [], failLogged := false }) ∧
    (∀ (s : Int) (oid : Option String), set_volume (some 0) none oid s =
       { status := 400, issued := false, params := [], failLogged := false }) := by
  constructor
  · intro s
    simp [seek, intTruthy]
  · intro s oid
    simp [set_volume, intTruthy]

/-- C10 counterexample: `album_id = ""` and `playlist_id = "p7"` are
both non-None, yet the playlists endpoint — not the albums endpoint —
is queried, because the precedence test uses truthiness, not a None
check. -/
theorem claim_C10_counterexample :
    get_tracks
        (fun _ => HttpResult.value (Json.obj [("items", Json.arr [Json.str "t1"])]))
        "h" 3689 (some "") (some "p7") =
      Except.ok (Json.arr [Json.str "t1"], some "library/playlists/p7/tracks") ∧
    "library/playlists/p7/tracks" ≠ "library/albums//tracks" ∧
    "library/playlists/p7/tracks" ≠ "library/albums/p7/tracks" := by
  refine ⟨rfl, ?_, ?_⟩ <;> decide

/-- C10 as amended: with both arguments None, `get_tracks` returns the
empty list (not None) and issues no request; when `album_id` is supplied
and truthy (non-empty), it takes precedence and the albums endpoint is
queried; an empty-string `album_id` is treated as absent, deferring to
`playlist_id` and the playlists endpoint. -/
theorem claim_C10_get_tracks_defaults_and_precedence :
    (∀ (transport : Transport) (ip : String) (apiPort : Nat),
       get_tracks transport ip apiPort none none = Except.ok (Json.arr [], none)) ∧
    (∀ (transport : Transport) (ip : String) (apiPort : Nat) (a p : String)
       (v : Json) (ep : Option String), a ≠ "" →
       get_tracks transport ip apiPort (some a) (some p) = Except.ok (v, ep) →
       ep = some ("library/albums/" ++ a ++ "/tracks")) ∧
    (∀ (transport : Transport) (ip : String) (apiPort : Nat) (p : String)
       (v : Json) (ep : Option String),
       get_tracks transport ip apiPort (some "") (some p) = Except.ok (v, ep) →
       ep = some ("library/playlists/" ++ p ++ "/tracks")) := by
  refine ⟨?_, ?_, ?_⟩
  · intro transport ip apiPort
    simp [get_tracks, pyOr, strTruthy]
  · intro transport ip apiPort a p v ep ha hres
    have htr : strTruthy (some a) = true := by
      simp [strTruthy, ha]
    simp only [get_tracks, pyOr, htr, if_true] at hres
    cases hr : get_request transport ip apiPort
        ("library/" ++ "albums" ++ "/" ++ a ++ "/tracks") [] with
    | error e =>
      rw [hr] at hres
      exact absurd hres fun hw => Except.noConfusion hw
    | ok o =>
      rw [hr] at hres
      cases o with
      | none =>
        simp only [Except.ok.injEq, Prod.mk.injEq] at hres
        rw [← hres.2]
        rfl
      | some tracks =>
        simp only [Except.ok.injEq, Prod.mk.injEq] at hres
        rw [← hres.2]
        rfl
  · intro transport ip apiPort p v ep hres
    have h0 : strTruthy (some "") = false := rfl
    simp only [get_tracks, pyOr, h0, Bool.false_eq_true, if_false] at hres
    cases hr : get_request transport ip apiPort
        ("library/" ++ "playlists" ++ "/" ++ p ++ "/tracks") [] with
    | error e =>
      rw [hr] at hres
      exact absurd hres fun hw => Except.noConfusion hw
    | ok o =>
      rw [hr] at hres
      cases o with
      | none =>
        simp only [Except.ok.injEq, Prod.mk.injEq] at hres
        rw [← hres.2]
        rfl
      | some tracks =>
        simp only [Except.ok.injEq, Prod.mk.injEq] at hres
        rw [← hres.2]
        rfl

/-- Witness for C10 as amended, at a concrete album lookup. -/
theorem claim_C10_get_tracks_defaults_and_precedence_witness :
    ("a1" : String) ≠ "" ∧
    get_tracks (fun _ => HttpResult.raised TransportError.timeout) "h" 3689
        (some "a1") (some "p1") =
      Except.ok (Json.null, some "library/albums/a1/tracks") ∧
    (some "library/albums/a1/tracks" : Option String) =
      some ("library/albums/" ++ "a1" ++ "/tracks") :=
  ⟨by decide, by rfl,
   claim_C10_get_tracks_defaults_and_precedence.2.1
     (fun _ => HttpResult.raised TransportError.timeout) "h" 3689 "a1" "p1"
     Json.null (some "library/albums/a1/tracks") (by decide) (by rfl)⟩

end ForkedDaapd
